import Mathlib

/-!
# Verification of the OpeniBank Python SDK request execution engine

This file is a shallow embedding, in Lean 4, of the request execution engine
of the OpeniBank Python SDK (file `sdks/python/openibank/__init__.py`):
the token lifecycle of `HTTPClient._ensure_token` / `HTTPClient.set_access_token`,
the status-code classification and retry/backoff loop of `HTTPClient.request`,
and the resource management of `HTTPClient.__init__` / `HTTPClient.close`.

Conventions of the embedding:
* JSON values are modelled by the inductive `JsonVal`; a parsed JSON object is
  a `List (String × JsonVal)` association list (Python `dict` lookups become
  `dictGet`).  JSON numbers are modelled as `Int` (the bodies appearing in the
  engine's logic are only inspected for truthiness and passed through).
* Machine floats (`time.time()`, delays, `Retry-After`) are modelled as `ℚ`.
* Python exceptions raised by the engine are the `TypedError` structure (one
  record carrying the union of the fields of the `OpeniBankError` subclasses,
  discriminated by `ErrKind`, mirroring the single base class with subclass
  extras).  Exceptions that escape the engine without being one of its typed
  errors (for example `ValueError` from `float(...)`, or an uncaught
  `aiohttp.ClientError`) are modelled by `RawExn`.
* The transport is an oracle: each attempt of the retry loop is given by an
  `AttemptResult` (a transport-level exception or an `HttpResponse`), and the
  token endpoint by a `TokenEndpointBehavior`.  Header lookup is modelled as
  exact-key lookup (aiohttp's header multidicts are case-insensitive; the
  canonical spellings used by the code stand for their equivalence classes).
* `await asyncio.sleep`, transport calls and token-endpoint calls are recorded
  in an event trace (`Event`), which the theorems inspect for attempt counts,
  sleep durations and transmitted headers.
-/

namespace OpeniBank

/-- JSON values, as returned by `response.json()`. -/
inductive JsonVal where
  | null : JsonVal
  | bool (b : Bool) : JsonVal
  | num (n : Int) : JsonVal
  | str (s : String) : JsonVal
  | arr (xs : List JsonVal) : JsonVal
  | obj (fields : List (String × JsonVal)) : JsonVal

/-- Lookup of a key in a parsed JSON object: Python's `dict.get(k)`
(`None` when absent). -/
def dictGet (d : List (String × JsonVal)) (k : String) : Option JsonVal :=
  (d.find? (fun p => p.1 == k)).map (fun p => p.2)

/-- Lookup of a response header: `response.headers.get(k)`. -/
def headerGet (hs : List (String × String)) (k : String) : Option String :=
  (hs.find? (fun p => p.1 == k)).map (fun p => p.2)

/-- Python truthiness of a JSON value (`None`, `False`, `0`, `""`, `[]`, `{}`
are falsy), as used by the `x or default` idioms in the exception
constructors. -/
def pythonTruthy : JsonVal → Bool
  | .null => false
  | .bool b => b
  | .num n => n != 0
  | .str s => s != ""
  | .arr xs => !xs.isEmpty
  | .obj fields => !fields.isEmpty

/-- Decimal digits to a natural number (helper for `parseFloatQ`). -/
def digitsToNat (cs : List Char) : Nat :=
  cs.foldl (fun n c => n * 10 + (c.toNat - 48)) 0

/-- Model of Python's built-in `float(s)` on plain decimal literals: an
optional sign followed by digits with at most one decimal point
(`"60"`, `"5."`, `".5"`, `"-1.25"`); `none` models the `ValueError` that
`float` raises on a string that is not a numeric literal (such as an
HTTP-date `Retry-After` value).  Exponent/`inf`/`nan` forms, which Python
also accepts but which never arise in the engine's documented behaviour,
are out of scope of the model. -/
def parseFloatQ (s : String) : Option ℚ :=
  let cs := s.data
  let signBody : Bool × List Char :=
    match cs with
    | '-' :: t => (true, t)
    | '+' :: t => (false, t)
    | _ => (false, cs)
  let neg := signBody.1
  let body := signBody.2
  let intPart := body.takeWhile Char.isDigit
  let rest := body.dropWhile Char.isDigit
  let build : List Char → List Char → Option ℚ := fun ip fp =>
    if ip.isEmpty ∧ fp.isEmpty then none
    else
      let numerator : Int := (digitsToNat ip * 10 ^ fp.length + digitsToNat fp : Nat)
      some (mkRat (if neg then -numerator else numerator) (10 ^ fp.length))
  match rest with
  | [] => build intPart []
  | '.' :: fracPart =>
      if fracPart.all Char.isDigit then build intPart fracPart else none
  | _ => none

/-- The kind of a typed engine error: one tag per `OpeniBankError` subclass
(plus `generic` for the base class itself). -/
inductive ErrKind where
  | authentication
  | authorization
  | validation
  | notFound
  | rateLimit
  | conflict
  | server
  | network
  | generic
deriving DecidableEq

/-- One field-level sub-error of `ValidationError` (`ValidationError.FieldError`):
`field`/`message`/`code` extracted from a body entry with defaults
`"unknown"`/`""`/`None`. -/
structure FieldError where
  field : JsonVal
  message : JsonVal
  code : Option JsonVal

/-- A typed engine error.  One record carrying the union of the fields of the
`OpeniBankError` hierarchy: every error has `message`, `code`, `status_code`,
`request_id` (the base-class fields); `required_scopes` belongs to
`AuthorizationError`, `errors` to `ValidationError`, `resource_type` and
`resource_id` to `NotFoundError`, `retry_after` to `RateLimitError`
(`none` models the attribute being absent on the other classes).  The
base-class `details` dict is omitted: no raise site of the engine passes
it, so it is constantly `{}`. -/
structure TypedError where
  kind : ErrKind
  message : JsonVal
  code : Option JsonVal
  status_code : Option Nat
  request_id : Option String
  required_scopes : JsonVal
  errors : List FieldError
  resource_type : Option JsonVal
  resource_id : Option JsonVal
  retry_after : Option ℚ

/-- An exception escaping the engine that is not one of its typed errors:
`valueError` models Python `ValueError` (raised by `float(...)` on a
non-numeric string), `attributeError` models `AttributeError` (raised by
`.get(...)` on a value that is not a dict), `typeError` models `TypeError`
(raised by iterating a non-iterable), `clientError` models an uncaught
transport exception (`aiohttp.ClientError` / `asyncio.TimeoutError`).
Messages reproduce Python's wording with the quotation marks omitted. -/
inductive RawExn where
  | valueError (msg : String)
  | attributeError (msg : String)
  | typeError (msg : String)
  | clientError (msg : String)

/-- The Python type name of a JSON value, as it appears in
`AttributeError` / `TypeError` messages. -/
def pyTypeName : JsonVal → String
  | .null => "NoneType"
  | .bool _ => "bool"
  | .num _ => "int"
  | .str _ => "str"
  | .arr _ => "list"
  | .obj _ => "dict"

/-- Whether a JSON value is an object (a Python dict, the only shape with a
`.get` method). -/
def JsonVal.isObj : JsonVal → Bool
  | .obj _ => true
  | _ => false

/-- `AuthenticationError(message)` with only the message argument, as raised
by `_ensure_token` and `_request_token`. -/
def mkAuthSimple (msg : String) : TypedError :=
  ⟨.authentication, .str msg, none, none, none, .arr [], [], none, none, none⟩

/-- `NetworkError(message)` with only the message argument, as raised by the
retry loop. -/
def mkNetworkError (msg : String) : TypedError :=
  ⟨.network, .str msg, none, none, none, .arr [], [], none, none, none⟩

/-- An HTTP response as seen by the engine: status code, headers, the body
parsed as a JSON value of any shape (`none` when `await response.json()`
raises because the body is not valid JSON), and the raw body text. -/
structure HttpResponse where
  status : Nat
  headers : List (String × String)
  jsonBody : Option JsonVal
  text : String

/-- `error_data` of `HTTPClient.request`: the parsed error body (any JSON
value), or the fallback `{"message": await response.text()}` when the body
is not parseable. -/
def errorData (resp : HttpResponse) : JsonVal :=
  match resp.jsonBody with
  | some v => v
  | none => .obj [("message", JsonVal.str resp.text)]

/-- `required_scopes or []` in `AuthorizationError.__init__`: the body value
when truthy, otherwise the empty list. -/
def pythonOrEmptyList (v : Option JsonVal) : JsonVal :=
  match v with
  | some j => if pythonTruthy j then j else .arr []
  | none => .arr []

/-- One element of the `ValidationError.errors` list comprehension:
`FieldError(field=e.get("field","unknown"), message=e.get("message",""),
code=e.get("code"))`.  On a non-object element Python raises
`AttributeError` from `e.get`; the comprehension aborts and the untyped
exception propagates. -/
def fieldErrorOfJson (j : JsonVal) : Except RawExn FieldError :=
  match j with
  | .obj fs =>
      .ok ⟨(dictGet fs "field").getD (.str "unknown"),
        (dictGet fs "message").getD (.str ""),
        dictGet fs "code"⟩
  | _ => .error (.attributeError (pyTypeName j ++ " object has no attribute get"))

/-- The `ValidationError.errors` comprehension over a list: elements are
converted left to right, the first failing element's exception
propagating. -/
def fieldErrorsOfList : List JsonVal → Except RawExn (List FieldError)
  | [] => .ok []
  | j :: rest =>
      match fieldErrorOfJson j with
      | .error rex => .error rex
      | .ok fe =>
          match fieldErrorsOfList rest with
          | .error rex => .error rex
          | .ok fes => .ok (fe :: fes)

/-- `ValidationError.__init__`: the comprehension over `errors or []`.
A falsy `errors` value yields `[]`; a truthy list is converted element by
element; a truthy string or dict iterates to strings, whose `.get` raises
`AttributeError`; any other truthy value is not iterable and raises
`TypeError`. -/
def mkFieldErrors (v : Option JsonVal) : Except RawExn (List FieldError) :=
  match v with
  | none => .ok []
  | some j =>
      if pythonTruthy j then
        match j with
        | .arr xs => fieldErrorsOfList xs
        | .str _ => .error (.attributeError "str object has no attribute get")
        | .obj _ => .error (.attributeError "str object has no attribute get")
        | _ => .error (.typeError (pyTypeName j ++ " object is not iterable"))
      else .ok []

/-- The outcome of classifying one HTTP response (the body of the
`async with session.request(...)` block of `HTTPClient.request`, lines
688-768): a returned payload, a raised typed error, or a raw (untyped)
exception escaping the classification itself. -/
inductive ClassifyResult where
  | success (payload : JsonVal)
  | failure (e : TypedError)
  | raw (e : RawExn)

/-- The error classifier: the status-code dispatch of `HTTPClient.request`.
`200`/`201` return the parsed body (whatever its shape), `204` returns `{}`,
every other status raises a typed error built from `error_data`, the status
and the `X-Request-ID` header.  Untyped escapes, modelled by `.raw`: a
`200`/`201` body that is not valid JSON makes `response.json()` raise; an
error-status `error_data` that is not a dict makes
`error_data.get("message", ...)` raise `AttributeError` before any
dispatch; a malformed `errors` value on a 400 makes the
`ValidationError.__init__` comprehension raise; a `429` whose `Retry-After`
header does not parse as a float makes `float(...)` raise `ValueError`. -/
def classify (resp : HttpResponse) : ClassifyResult :=
  let request_id := headerGet resp.headers "X-Request-ID"
  if resp.status = 200 ∨ resp.status = 201 then
    match resp.jsonBody with
    | some v => .success v
    | none => .raw (.valueError "response body is not valid JSON")
  else if resp.status = 204 then
    .success (.obj [])
  else
    match errorData resp with
    | .obj d =>
      let msg := (dictGet d "message").getD (.str "Unknown error")
      let ecode := dictGet d "code"
      if resp.status = 401 then
        .failure ⟨.authentication, msg, ecode, some resp.status, request_id,
          .arr [], [], none, none, none⟩
      else if resp.status = 403 then
        .failure ⟨.authorization, msg, ecode, some resp.status, request_id,
          pythonOrEmptyList (dictGet d "required_scopes"), [], none, none, none⟩
      else if resp.status = 400 then
        match mkFieldErrors (dictGet d "errors") with
        | .ok fes =>
            .failure ⟨.validation, msg, ecode, some resp.status, request_id,
              .arr [], fes, none, none, none⟩
        | .error rex => .raw rex
      else if resp.status = 404 then
        .failure ⟨.notFound, msg, ecode, some resp.status, request_id,
          .arr [], [], dictGet d "resource_type", dictGet d "resource_id", none⟩
      else if resp.status = 409 then
        .failure ⟨.conflict, msg, ecode, some resp.status, request_id,
          .arr [], [], none, none, none⟩
      else if resp.status = 429 then
        match parseFloatQ ((headerGet resp.headers "Retry-After").getD "60") with
        | none =>
            .raw (.valueError ("could not convert string to float: " ++
              (headerGet resp.headers "Retry-After").getD "60"))
        | some q =>
            .failure ⟨.rateLimit, msg, ecode, some resp.status, request_id,
              .arr [], [], none, none, some (if q = 0 then 60 else q)⟩
      else if resp.status ≥ 500 then
        .failure ⟨.server, msg, ecode, some resp.status, request_id,
          .arr [], [], none, none, none⟩
      else
        .failure ⟨.generic, msg, ecode, some resp.status, request_id,
          .arr [], [], none, none, none⟩
    | other =>
        .raw (.attributeError (pyTypeName other ++ " object has no attribute get"))

/-- The SDK configuration (`Config` dataclass): fields in declaration order
`client_id`, `client_secret`, `api_key`, `environment`, `api_version`,
`timeout`, `max_retries`, `retry_delay`, `auto_refresh`, `debug`. -/
structure Config where
  client_id : String
  client_secret : String
  api_key : Option String
  environment : String
  api_version : String
  timeout : ℚ
  max_retries : Nat
  retry_delay : ℚ
  auto_refresh : Bool
  debug : Bool

/-- `Config.base_url`. -/
def Config.base_url (cfg : Config) : String :=
  if cfg.environment = "production" then "https://api.openibank.com"
  else "https://sandbox.openibank.com"

/-- `Config.websocket_url`. -/
def Config.websocket_url (cfg : Config) : String :=
  if cfg.environment = "production" then "wss://ws.openibank.com"
  else "wss://ws.sandbox.openibank.com"

/-- An `aiohttp.ClientSession`: an identifier plus its closed flag. -/
structure Session where
  sid : Nat
  closed : Bool

/-- The mutable state of `HTTPClient`: `_access_token`, `_token_expires_at`,
`_session`, `_owned_session`. -/
structure ClientState where
  access_token : Option String
  token_expires_at : ℚ
  session : Option Session
  owned_session : Bool

/-- `HTTPClient.__init__` (state part): no token, expiry 0, the caller's
session if supplied, `_owned_session = session is None`. -/
def clientInit (session : Option Session) : ClientState :=
  ⟨none, 0, session, session.isNone⟩

/-- A session freshly created by `_get_session`
(`aiohttp.ClientSession(timeout=...)`). -/
def freshSession : Session := ⟨0, false⟩

/-- `HTTPClient._get_session`: reuse the stored session when present and not
closed, otherwise create a new one and mark it owned. -/
def getSession (st : ClientState) : ClientState × Session :=
  match st.session with
  | some s =>
      if s.closed then
        (⟨st.access_token, st.token_expires_at, some freshSession, true⟩, freshSession)
      else (st, s)
  | none => (⟨st.access_token, st.token_expires_at, some freshSession, true⟩, freshSession)

/-- `HTTPClient.close`: close and drop the session only when one is stored
and it is owned.  The second component reports the session that was closed
(`none` when nothing was closed). -/
def close (st : ClientState) : ClientState × Option Session :=
  if st.session.isSome ∧ st.owned_session then
    (⟨st.access_token, st.token_expires_at, none, st.owned_session⟩, st.session)
  else (st, none)

/-- `HTTPClient.set_access_token`: store the token and record
`_token_expires_at = time.time() + expires_in - 60` (the 60-second staleness
buffer).  `now` stands for the single `time.time()` instant of the call. -/
def setAccessToken (st : ClientState) (now : ℚ) (token : String) (expires_in : Int) :
    ClientState :=
  ⟨some token, now + (expires_in : ℚ) - 60, st.session, st.owned_session⟩

/-- The guard `self._access_token and time.time() < self._token_expires_at`
of `_ensure_token` (Python truthiness: an empty-string token is falsy). -/
def tokenIsFresh (st : ClientState) (now : ℚ) : Bool :=
  match st.access_token with
  | some t => t != "" && decide (now < st.token_expires_at)
  | none => false

/-- The guard `if self.config.api_key:` of `_ensure_token`
(Python truthiness: an empty-string key is falsy). -/
def apiKeyTruthy (cfg : Config) : Bool :=
  match cfg.api_key with
  | some k => k != ""
  | none => false

/-- The fields of a token-endpoint success body read by
`TokenResponse.from_dict`: `access_token` (`data["access_token"]`) and
`expires_in` (`data.get("expires_in", 3600)` already applied). -/
structure TokenBody where
  access_token : String
  expires_in : Int

/-- The behaviour of the token endpoint for one `_request_token` call: the
`session.post` either raises a transport exception or yields a response
(whose body is abstracted to the fields the code reads). -/
inductive TokenEndpointBehavior where
  | transportError (msg : String)
  | response (status : Nat) (body : TokenBody)

/-- The result of `_ensure_token`: a bearer token string, a typed error
(`AuthenticationError`), or a raw exception escaping unconverted. -/
inductive EnsureResult where
  | ok (token : String)
  | typedErr (e : TypedError)
  | raw (e : RawExn)

/-- An observable engine event: a transport attempt of the retry loop (with
the headers transmitted), an `asyncio.sleep` (with its duration), or a POST
to the token endpoint. -/
inductive Event where
  | attempt (headers : List (String × String))
  | sleep (d : ℚ)
  | tokenFetch

/-- `HTTPClient._ensure_token` (with `_request_token` inlined): return the
cached token while fresh; else the static api key; else run the
client-credentials flow (`POST /oauth/token`), rejecting any status other
than 200 with `AuthenticationError` and otherwise caching via
`set_access_token` and returning the new token; else fail.  Note that a
transport exception from the token call is not caught anywhere on this
path. -/
def ensureToken (cfg : Config) (st : ClientState) (now : ℚ)
    (beh : TokenEndpointBehavior) : ClientState × List Event × EnsureResult :=
  if tokenIsFresh st now then
    (st, [], .ok (st.access_token.getD ""))
  else if apiKeyTruthy cfg then
    (st, [], .ok (cfg.api_key.getD ""))
  else if cfg.client_id ≠ "" ∧ cfg.client_secret ≠ "" then
    match beh with
    | .transportError m => (st, [.tokenFetch], .raw (.clientError m))
    | .response status body =>
        if status ≠ 200 then
          (st, [.tokenFetch],
            .typedErr (mkAuthSimple ("Failed to obtain access token: " ++ toString status)))
        else
          (setAccessToken st now body.access_token body.expires_in, [.tokenFetch],
            .ok body.access_token)
  else
    (st, [], .typedErr (mkAuthSimple "No valid credentials configured"))

/-- `HTTPClient._get_headers`. -/
def getHeaders (cfg : Config) (token : String) : List (String × String) :=
  [("Authorization", "Bearer " ++ token),
   ("Content-Type", "application/json"),
   ("Accept", "application/json"),
   ("X-API-Version", cfg.api_version),
   ("User-Agent", "OpeniBank-Python/1.0.0")]

/-- The header set of one `request` call: `_get_headers` plus, when a truthy
idempotency key is supplied, the added `Idempotency-Key` entry. -/
def requestHeaders (cfg : Config) (token : String) (idem : Option String) :
    List (String × String) :=
  match idem with
  | some k => if k ≠ "" then getHeaders cfg token ++ [("Idempotency-Key", k)]
              else getHeaders cfg token
  | none => getHeaders cfg token

/-- What one attempt of the retry loop observes from the transport: either a
transport-level exception (`aiohttp.ClientError` / `asyncio.TimeoutError`)
or an HTTP response. -/
inductive AttemptResult where
  | transportError (msg : String)
  | response (resp : HttpResponse)

/-- The final outcome of a `request` call: the returned payload, a raised
typed error, or a raw exception escaping unconverted. -/
inductive ReqOutcome where
  | ok (payload : JsonVal)
  | typedError (e : TypedError)
  | rawExn (e : RawExn)

/-- The sleep chosen before retrying after typed failure `e` on attempt
index `attempt`: `e.retry_after if isinstance(e, RateLimitError) else
self.config.retry_delay * (2 ** attempt)`.  (A rate-limit error built by
the classifier always carries `retry_after`; the `getD` default is never
exercised.) -/
def retrySleep (cfg : Config) (e : TypedError) (attempt : Nat) : ℚ :=
  if e.kind = .rateLimit then e.retry_after.getD 60
  else cfg.retry_delay * 2 ^ attempt

/-- The `for attempt in range(self.config.max_retries)` loop of
`HTTPClient.request` (lines 679-798), as a recursion on the remaining
iterations: `attempt` is the current index, `remaining` the iterations left
(`attempt + remaining = max_retries` at the top-level call), `lastError` the
`last_error` variable.  Each iteration performs the transport call, and on a
retryable failure (transport error, or a classified `RateLimitError` /
`ServerError`) sleeps and continues while `attempt < max_retries - 1`,
otherwise raises; a non-retryable typed error and a raw exception both
escape the loop immediately.  When the range is exhausted without an
iteration having raised (only possible when it was empty), the code after
the loop raises `last_error` or the fallback `NetworkError`. -/
def attemptLoop (cfg : Config) (headers : List (String × String))
    (oracle : Nat → AttemptResult) :
    Nat → Nat → Option TypedError → List Event × ReqOutcome
  | _attempt, 0, lastError =>
      ([], match lastError with
        | some e => .typedError e
        | none => .typedError (mkNetworkError "Request failed after all retries"))
  | attempt, r + 1, _lastError =>
      match oracle attempt with
      | .transportError m =>
          let ne := mkNetworkError ("Network error: " ++ m)
          if attempt < cfg.max_retries - 1 then
            let d := cfg.retry_delay * 2 ^ attempt
            let rest := attemptLoop cfg headers oracle (attempt + 1) r (some ne)
            (Event.attempt headers :: Event.sleep d :: rest.1, rest.2)
          else
            ([Event.attempt headers], .typedError ne)
      | .response resp =>
          match classify resp with
          | .success payload => ([Event.attempt headers], .ok payload)
          | .raw rex => ([Event.attempt headers], .rawExn rex)
          | .failure e =>
              if e.kind = .rateLimit ∨ e.kind = .server then
                if attempt < cfg.max_retries - 1 then
                  let d := retrySleep cfg e attempt
                  let rest := attemptLoop cfg headers oracle (attempt + 1) r (some e)
                  (Event.attempt headers :: Event.sleep d :: rest.1, rest.2)
                else
                  ([Event.attempt headers], .typedError e)
              else
                ([Event.attempt headers], .typedError e)

/-- The result of one `HTTPClient.request` call: final client state, event
trace, outcome. -/
structure ReqResult where
  state : ClientState
  events : List Event
  outcome : ReqOutcome

/-- `HTTPClient.request`: get the session, ensure a token (errors there
propagate before any attempt), build the headers once (adding the
idempotency key when truthy), then run the retry loop.  `now` is the
`time.time()` instant of the call; `beh` the token endpoint's behaviour;
`oracle` the transport's behaviour per attempt index.  The transported
method, URL, query parameters and JSON body are abstracted into the oracle
(they do not influence the control flow being verified). -/
def request (cfg : Config) (st : ClientState) (now : ℚ)
    (beh : TokenEndpointBehavior) (oracle : Nat → AttemptResult)
    (idem : Option String) : ReqResult :=
  let st1 := (getSession st).1
  match ensureToken cfg st1 now beh with
  | (st2, evs, .typedErr e) => ⟨st2, evs, .typedError e⟩
  | (st2, evs, .raw r) => ⟨st2, evs, .rawExn r⟩
  | (st2, evs, .ok token) =>
      let headers := requestHeaders cfg token idem
      let lp := attemptLoop cfg headers oracle 0 cfg.max_retries none
      ⟨st2, evs ++ lp.1, lp.2⟩

/-- Whether an event is a transport attempt of the retry loop. -/
def Event.isAttempt : Event → Bool
  | .attempt _ => true
  | _ => false

/-- Whether an event is a token-endpoint call. -/
def Event.isTokenFetch : Event → Bool
  | .tokenFetch => true
  | _ => false

/-- Number of transport attempts in a trace. -/
def countAttempts (evs : List Event) : Nat :=
  (evs.filter Event.isAttempt).length

/-- Number of token-endpoint calls in a trace. -/
def countTokenFetches (evs : List Event) : Nat :=
  (evs.filter Event.isTokenFetch).length

/-- The sleep durations of a trace, in order. -/
def sleepsOf : List Event → List ℚ
  | [] => []
  | .sleep d :: t => d :: sleepsOf t
  | _ :: t => sleepsOf t

/-- The header sets transmitted by the attempts of a trace, in order. -/
def attemptHeadersOf : List Event → List (List (String × String))
  | [] => []
  | .attempt h :: t => h :: attemptHeadersOf t
  | _ :: t => attemptHeadersOf t

/-- Whether one attempt's observation is a retryable failure: a
transport-level exception, or a response the classifier turns into a
`RateLimitError` or `ServerError`. -/
def isRetryableFailure (a : AttemptResult) : Bool :=
  match a with
  | .transportError _ => true
  | .response resp =>
      match classify resp with
      | .failure e => decide (e.kind = .rateLimit ∨ e.kind = .server)
      | _ => false

/-- The failure the loop observes (and records in `last_error`) for a
failing attempt: the `NetworkError` wrapping a transport exception, or the
classified typed error.  Only meaningful on failing attempts; an attempt
that does not fail is mapped to a placeholder never used by the theorems. -/
def observedFailure (a : AttemptResult) : TypedError :=
  match a with
  | .transportError m => mkNetworkError ("Network error: " ++ m)
  | .response resp =>
      match classify resp with
      | .failure e => e
      | _ => mkNetworkError "attempt did not fail"

/-- The sleep the loop performs after retryable failing attempt `a` at index
`attempt`: `retry_delay * 2 ** attempt`, except a classified rate-limit
failure which sleeps its `retry_after`. -/
def sleepFor (cfg : Config) (a : AttemptResult) (attempt : Nat) : ℚ :=
  match a with
  | .transportError _ => cfg.retry_delay * 2 ^ attempt
  | .response resp =>
      match classify resp with
      | .failure e => retrySleep cfg e attempt
      | _ => cfg.retry_delay * 2 ^ attempt

/-! ## Auxiliary lemmas about the engine -/

/-- `_get_session` never touches the token fields. -/
theorem getSession_access_token (st : ClientState) :
    (getSession st).1.access_token = st.access_token := by
  unfold getSession
  cases st.session with
  | none => rfl
  | some s => by_cases h : s.closed <;> simp [h]

/-- Step 1 of `_ensure_token`: a fresh cached token is returned as is. -/
theorem ensureToken_fresh (cfg : Config) (st : ClientState) (now : ℚ)
    (beh : TokenEndpointBehavior) (t : String) (ht : st.access_token = some t)
    (ht2 : t ≠ "") (hlt : now < st.token_expires_at) :
    ensureToken cfg st now beh = (st, [], .ok t) := by
  have hfresh : tokenIsFresh st now = true := by
    simp [tokenIsFresh, ht, ht2, hlt]
  simp [ensureToken, hfresh, ht]

/-- Step 2 of `_ensure_token`: no fresh cached token, api key configured. -/
theorem ensureToken_apiKey (cfg : Config) (st : ClientState) (now : ℚ)
    (beh : TokenEndpointBehavior) (k : String)
    (hnf : tokenIsFresh st now = false) (hk : cfg.api_key = some k) (hk2 : k ≠ "") :
    ensureToken cfg st now beh = (st, [], .ok k) := by
  have hkt : apiKeyTruthy cfg = true := by simp [apiKeyTruthy, hk, hk2]
  simp [ensureToken, hnf, hkt, hk]

/-- Step 3 of `_ensure_token`, failure case: the token endpoint answered with
a status other than 200. -/
theorem ensureToken_creds_non200 (cfg : Config) (st : ClientState) (now : ℚ)
    (status : Nat) (body : TokenBody)
    (hnf : tokenIsFresh st now = false) (hnk : apiKeyTruthy cfg = false)
    (hcid : cfg.client_id ≠ "") (hcs : cfg.client_secret ≠ "") (hs : status ≠ 200) :
    ensureToken cfg st now (.response status body) =
      (st, [.tokenFetch],
       .typedErr (mkAuthSimple ("Failed to obtain access token: " ++ toString status))) := by
  simp [ensureToken, hnf, hnk, hcid, hcs, hs]

/-- Step 3 of `_ensure_token`, success case: a 200 answer is cached via
`set_access_token` and its token returned. -/
theorem ensureToken_creds_200 (cfg : Config) (st : ClientState) (now : ℚ)
    (body : TokenBody)
    (hnf : tokenIsFresh st now = false) (hnk : apiKeyTruthy cfg = false)
    (hcid : cfg.client_id ≠ "") (hcs : cfg.client_secret ≠ "") :
    ensureToken cfg st now (.response 200 body) =
      (setAccessToken st now body.access_token body.expires_in, [.tokenFetch],
       .ok body.access_token) := by
  simp [ensureToken, hnf, hnk, hcid, hcs]

/-- Step 3 of `_ensure_token`, transport failure: the exception from the
token `session.post` is not caught on this path. -/
theorem ensureToken_creds_transport (cfg : Config) (st : ClientState) (now : ℚ)
    (m : String)
    (hnf : tokenIsFresh st now = false) (hnk : apiKeyTruthy cfg = false)
    (hcid : cfg.client_id ≠ "") (hcs : cfg.client_secret ≠ "") :
    ensureToken cfg st now (.transportError m) =
      (st, [.tokenFetch], .raw (.clientError m)) := by
  simp [ensureToken, hnf, hnk, hcid, hcs]

/-- Step 4 of `_ensure_token`: no usable credential at all. -/
theorem ensureToken_noCreds (cfg : Config) (st : ClientState) (now : ℚ)
    (beh : TokenEndpointBehavior)
    (hnf : tokenIsFresh st now = false) (hnk : apiKeyTruthy cfg = false)
    (hc : cfg.client_id = "" ∨ cfg.client_secret = "") :
    ensureToken cfg st now beh =
      (st, [], .typedErr (mkAuthSimple "No valid credentials configured")) := by
  have hcc : ¬ (cfg.client_id ≠ "" ∧ cfg.client_secret ≠ "") := by
    rcases hc with h | h <;> simp [h]
  simp [ensureToken, hnf, hnk, hcc]

/-- `request` in api-key mode, started with no cached token: the whole call
is the retry loop over headers built from the api key. -/
theorem request_apiKey_eq (cfg : Config) (st : ClientState) (now : ℚ)
    (beh : TokenEndpointBehavior) (oracle : Nat → AttemptResult)
    (idem : Option String) (k : String)
    (hk : cfg.api_key = some k) (hk2 : k ≠ "") (ha : st.access_token = none) :
    request cfg st now beh oracle idem =
      ⟨(getSession st).1,
       (attemptLoop cfg (requestHeaders cfg k idem) oracle 0 cfg.max_retries none).1,
       (attemptLoop cfg (requestHeaders cfg k idem) oracle 0 cfg.max_retries none).2⟩ := by
  have h1 : (getSession st).1.access_token = none := by
    rw [getSession_access_token]; exact ha
  have hnf : tokenIsFresh (getSession st).1 now = false := by
    simp [tokenIsFresh, h1]
  simp only [request]
  rw [ensureToken_apiKey cfg (getSession st).1 now beh k hnf hk hk2]
  simp

/-- One retrying iteration of the loop: a retryable failure with attempts
remaining records one transport attempt and one sleep, then continues with
`last_error` set to the observed failure. -/
theorem attemptLoop_retry_step (cfg : Config) (hdrs : List (String × String))
    (oracle : Nat → AttemptResult) (attempt r : Nat) (le : Option TypedError)
    (hlt : attempt < cfg.max_retries - 1)
    (hfail : isRetryableFailure (oracle attempt) = true) :
    attemptLoop cfg hdrs oracle attempt (r + 1) le =
      (Event.attempt hdrs :: Event.sleep (sleepFor cfg (oracle attempt) attempt) ::
        (attemptLoop cfg hdrs oracle (attempt + 1) r
          (some (observedFailure (oracle attempt)))).1,
       (attemptLoop cfg hdrs oracle (attempt + 1) r
          (some (observedFailure (oracle attempt)))).2) := by
  cases h : oracle attempt with
  | transportError m =>
      simp [attemptLoop, h, hlt, sleepFor, observedFailure]
  | response resp =>
      cases hc : classify resp with
      | success p => simp [isRetryableFailure, h, hc] at hfail
      | raw rex => simp [isRetryableFailure, h, hc] at hfail
      | failure e =>
          have hkind : e.kind = .rateLimit ∨ e.kind = .server := by
            have := hfail
            simp [isRetryableFailure, h, hc] at this
            exact this
          simp [attemptLoop, h, hc, hkind, hlt, sleepFor, observedFailure]

/-- The last iteration of the loop: a retryable failure with no attempts
remaining raises the observed failure without sleeping. -/
theorem attemptLoop_retry_last (cfg : Config) (hdrs : List (String × String))
    (oracle : Nat → AttemptResult) (attempt r : Nat) (le : Option TypedError)
    (hge : ¬ attempt < cfg.max_retries - 1)
    (hfail : isRetryableFailure (oracle attempt) = true) :
    attemptLoop cfg hdrs oracle attempt (r + 1) le =
      ([Event.attempt hdrs], .typedError (observedFailure (oracle attempt))) := by
  cases h : oracle attempt with
  | transportError m =>
      simp [attemptLoop, h, hge, observedFailure]
  | response resp =>
      cases hc : classify resp with
      | success p => simp [isRetryableFailure, h, hc] at hfail
      | raw rex => simp [isRetryableFailure, h, hc] at hfail
      | failure e =>
          have hkind : e.kind = .rateLimit ∨ e.kind = .server := by
            have := hfail
            simp [isRetryableFailure, h, hc] at this
            exact this
          simp [attemptLoop, h, hc, hkind, hge, observedFailure]

/-- A non-retryable typed failure escapes the loop immediately: one
transport attempt, no sleep, the error raised unchanged — independently of
how many attempts remain. -/
theorem attemptLoop_terminal (cfg : Config) (hdrs : List (String × String))
    (oracle : Nat → AttemptResult) (attempt r : Nat) (le : Option TypedError)
    (resp : HttpResponse) (e : TypedError)
    (h : oracle attempt = .response resp) (hc : classify resp = .failure e)
    (hkind : ¬ (e.kind = .rateLimit ∨ e.kind = .server)) :
    attemptLoop cfg hdrs oracle attempt (r + 1) le =
      ([Event.attempt hdrs], .typedError e) := by
  simp [attemptLoop, h, hc, hkind]

/-- The event trace produced by the loop when every attempt fails retryably:
`r` attempts starting at index `attempt`, a sleep after each but the
last. -/
def failTrace (cfg : Config) (hdrs : List (String × String))
    (oracle : Nat → AttemptResult) : Nat → Nat → List Event
  | _, 0 => []
  | _attempt, 1 => [Event.attempt hdrs]
  | attempt, r + 2 =>
      Event.attempt hdrs :: Event.sleep (sleepFor cfg (oracle attempt) attempt) ::
        failTrace cfg hdrs oracle (attempt + 1) (r + 1)

/-- Exhaustion of the retry loop: when every remaining attempt fails
retryably, the loop runs all of them, produces the `failTrace` events and
raises the failure observed on the last attempt. -/
theorem attemptLoop_permfail (cfg : Config) (hdrs : List (String × String))
    (oracle : Nat → AttemptResult) (r attempt : Nat) (le : Option TypedError)
    (hsum : attempt + r = cfg.max_retries) (hr : 1 ≤ r)
    (hfail : ∀ i, attempt ≤ i → i < cfg.max_retries → isRetryableFailure (oracle i) = true) :
    attemptLoop cfg hdrs oracle attempt r le =
      (failTrace cfg hdrs oracle attempt r,
       .typedError (observedFailure (oracle (cfg.max_retries - 1)))) := by
  induction r generalizing attempt le with
  | zero => omega
  | succ s ih =>
      cases s with
      | zero =>
          have hA : attempt = cfg.max_retries - 1 := by omega
          have hge : ¬ attempt < cfg.max_retries - 1 := by omega
          rw [attemptLoop_retry_last cfg hdrs oracle attempt 0 le hge
            (hfail attempt (Nat.le_refl _) (by omega))]
          rw [hA]
          rfl
      | succ t =>
          have hlt : attempt < cfg.max_retries - 1 := by omega
          rw [attemptLoop_retry_step cfg hdrs oracle attempt (t + 1) le hlt
            (hfail attempt (Nat.le_refl _) (by omega))]
          rw [ih (attempt + 1) (some (observedFailure (oracle attempt))) (by omega)
            (by omega) (fun i h1 h2 => hfail i (by omega) h2)]
          rfl

/-- `failTrace` contains exactly `r` transport attempts. -/
theorem countAttempts_failTrace (cfg : Config) (hdrs : List (String × String))
    (oracle : Nat → AttemptResult) (r attempt : Nat) :
    countAttempts (failTrace cfg hdrs oracle attempt r) = r := by
  induction r generalizing attempt with
  | zero => rfl
  | succ s ih =>
      cases s with
      | zero => rfl
      | succ t =>
          have := ih (attempt + 1)
          simp [failTrace, countAttempts, List.filter, Event.isAttempt] at this ⊢
          omega

/-- The sleeps of `failTrace`: one per attempt except the last, the `j`-th
one being the backoff for the failure of attempt `attempt + j`. -/
theorem sleepsOf_failTrace (cfg : Config) (hdrs : List (String × String))
    (oracle : Nat → AttemptResult) (r attempt : Nat) :
    sleepsOf (failTrace cfg hdrs oracle attempt r) =
      (List.range (r - 1)).map
        (fun j => sleepFor cfg (oracle (attempt + j)) (attempt + j)) := by
  induction r generalizing attempt with
  | zero => rfl
  | succ s ih =>
      cases s with
      | zero => rfl
      | succ t =>
          have hrec := ih (attempt + 1)
          simp only [failTrace, sleepsOf]
          rw [hrec]
          simp only [Nat.add_sub_cancel]
          have hshift : (List.range t).map
              (fun j => sleepFor cfg (oracle (attempt + 1 + j)) (attempt + 1 + j)) =
              (List.range t).map
              (fun j => sleepFor cfg (oracle (attempt + (j + 1))) (attempt + (j + 1))) := by
            apply List.map_congr_left
            intro j _
            rw [show attempt + 1 + j = attempt + (j + 1) by omega]
          rw [hshift]
          rw [List.range_succ_eq_map]
          simp [List.map_map, Function.comp]

/-- Every event the retry loop emits is either a transport attempt carrying
exactly the headers the loop was given, or a sleep: the header set is never
recomputed, and the loop never calls the token endpoint. -/
theorem attemptLoop_events_shape (cfg : Config) (hdrs : List (String × String))
    (oracle : Nat → AttemptResult) (r attempt : Nat) (le : Option TypedError) :
    ∀ ev ∈ (attemptLoop cfg hdrs oracle attempt r le).1,
      ev = Event.attempt hdrs ∨ ∃ d, ev = Event.sleep d := by
  induction r generalizing attempt le with
  | zero =>
      intro ev hev
      simp [attemptLoop] at hev
  | succ s ih =>
      intro ev hev
      cases h : oracle attempt with
      | transportError m =>
          by_cases hlt : attempt < cfg.max_retries - 1
          · simp only [attemptLoop, h, hlt, if_true, List.mem_cons] at hev
            rcases hev with rfl | hev
            · exact Or.inl rfl
            rcases hev with rfl | hev
            · exact Or.inr ⟨_, rfl⟩
            · exact ih (attempt + 1) _ ev hev
          · simp [attemptLoop, h, hlt] at hev
            exact Or.inl hev
      | response resp =>
          cases hc : classify resp with
          | success p =>
              simp [attemptLoop, h, hc] at hev
              exact Or.inl hev
          | raw rex =>
              simp [attemptLoop, h, hc] at hev
              exact Or.inl hev
          | failure e =>
              by_cases hkind : e.kind = .rateLimit ∨ e.kind = .server
              · by_cases hlt : attempt < cfg.max_retries - 1
                · simp only [attemptLoop, h, hc, hkind, hlt, if_true,
                    List.mem_cons] at hev
                  rcases hev with rfl | hev
                  · exact Or.inl rfl
                  rcases hev with rfl | hev
                  · exact Or.inr ⟨_, rfl⟩
                  · exact ih (attempt + 1) _ ev hev
                · simp [attemptLoop, h, hc, hkind, hlt] at hev
                  exact Or.inl hev
              · simp [attemptLoop, h, hc, hkind] at hev
                exact Or.inl hev

/-- Counting helper: an attempt followed by a sleep adds one attempt. -/
theorem countAttempts_cons_pair (hdrs : List (String × String)) (d : ℚ)
    (l : List Event) :
    countAttempts (Event.attempt hdrs :: Event.sleep d :: l) = countAttempts l + 1 := by
  simp [countAttempts, Event.isAttempt, List.filter]

/-- Counting helper: a single attempt event. -/
theorem countAttempts_single (hdrs : List (String × String)) :
    countAttempts [Event.attempt hdrs] = 1 := rfl

/-- Sleep-collection helper. -/
theorem sleepsOf_cons_pair (hdrs : List (String × String)) (d : ℚ) (l : List Event) :
    sleepsOf (Event.attempt hdrs :: Event.sleep d :: l) = d :: sleepsOf l := rfl

/-- A trace made only of attempts with fixed headers and of sleeps transmits
that header set on every attempt. -/
theorem attemptHeadersOf_of_shape (hdrs : List (String × String)) :
    ∀ evs : List Event,
      (∀ ev ∈ evs, ev = Event.attempt hdrs ∨ ∃ d, ev = Event.sleep d) →
      attemptHeadersOf evs = List.replicate (countAttempts evs) hdrs := by
  intro evs
  induction evs with
  | nil => intro _; rfl
  | cons a t ih =>
      intro hshape
      have ha := hshape a (List.mem_cons_self a t)
      have ht := ih (fun ev hev => hshape ev (List.mem_cons_of_mem a hev))
      rcases ha with rfl | ⟨d, rfl⟩
      · simp [attemptHeadersOf, countAttempts, Event.isAttempt, List.filter,
          List.replicate_succ] at ht ⊢
        exact ht
      · simp [attemptHeadersOf, countAttempts, Event.isAttempt, List.filter] at ht ⊢
        exact ht

/-- A trace made only of attempts and sleeps contains no token-endpoint
call. -/
theorem countTokenFetches_of_shape (hdrs : List (String × String)) :
    ∀ evs : List Event,
      (∀ ev ∈ evs, ev = Event.attempt hdrs ∨ ∃ d, ev = Event.sleep d) →
      countTokenFetches evs = 0 := by
  intro evs hshape
  simp only [countTokenFetches, List.length_eq_zero]
  rw [List.filter_eq_nil_iff]
  intro ev hev
  rcases hshape ev hev with rfl | ⟨d, rfl⟩ <;> simp [Event.isTokenFetch]

/-- Whether a raw exception is a transport-level one. -/
def RawExn.isClientError : RawExn → Bool
  | .clientError _ => true
  | _ => false

/-- `fieldErrorOfJson` only raises `AttributeError`, never a transport
exception. -/
theorem fieldErrorOfJson_error_shape (j : JsonVal) (rex : RawExn)
    (h : fieldErrorOfJson j = .error rex) : rex.isClientError = false := by
  cases j <;> simp [fieldErrorOfJson] at h <;> simp [← h, RawExn.isClientError]

/-- The `ValidationError` element conversion only raises `AttributeError`,
never a transport exception. -/
theorem fieldErrorsOfList_error_shape :
    ∀ (xs : List JsonVal) (rex : RawExn),
      fieldErrorsOfList xs = .error rex → rex.isClientError = false := by
  intro xs
  induction xs with
  | nil =>
      intro rex h
      simp [fieldErrorsOfList] at h
  | cons a t ih =>
      intro rex h
      unfold fieldErrorsOfList at h
      cases ha : fieldErrorOfJson a with
      | error r1 =>
          rw [ha] at h
          injection h with h2
          exact h2 ▸ fieldErrorOfJson_error_shape a r1 ha
      | ok fe =>
          rw [ha] at h
          cases ht : fieldErrorsOfList t with
          | error r2 =>
              rw [ht] at h
              injection h with h2
              exact h2 ▸ ih r2 ht
          | ok fes =>
              rw [ht] at h
              cases h

/-- `mkFieldErrors` only raises `AttributeError` / `TypeError`, never a
transport exception. -/
theorem mkFieldErrors_error_shape (v : Option JsonVal) (rex : RawExn)
    (h : mkFieldErrors v = .error rex) : rex.isClientError = false := by
  unfold mkFieldErrors at h
  repeat' split at h
  all_goals first
    | (simp at h; done)
    | exact fieldErrorsOfList_error_shape _ rex h
    | (injection h with h2; simp [← h2, RawExn.isClientError])

/-- The untyped exceptions the classifier can produce are `ValueError`,
`AttributeError` and `TypeError` — never a transport-level exception
(`aiohttp.ClientError` / `asyncio.TimeoutError`). -/
theorem classify_raw_shape (resp : HttpResponse) (rex : RawExn)
    (h : classify resp = .raw rex) : rex.isClientError = false := by
  unfold classify at h
  repeat' split at h
  all_goals first
    | (simp at h; done)
    | (simp at h
       subst h
       first
         | rfl
         | exact mkFieldErrors_error_shape _ _ (by assumption))

/-- The retry loop never lets a transport-level exception escape untyped:
its outcome is never a raw `clientError`.  (Transport failures of the
attempts are wrapped into `NetworkError` before being raised.) -/
theorem attemptLoop_outcome_not_clientError (cfg : Config)
    (hdrs : List (String × String)) (oracle : Nat → AttemptResult)
    (r : Nat) : ∀ (attempt : Nat) (le : Option TypedError) (m : String),
    (attemptLoop cfg hdrs oracle attempt r le).2 ≠ .rawExn (.clientError m) := by
  induction r with
  | zero =>
      intro attempt le m
      cases le <;> simp [attemptLoop]
  | succ s ih =>
      intro attempt le m
      cases h : oracle attempt with
      | transportError mm =>
          by_cases hlt : attempt < cfg.max_retries - 1
          · simp only [attemptLoop, h, hlt, if_true]
            exact ih (attempt + 1) _ m
          · simp [attemptLoop, h, hlt]
      | response resp =>
          cases hc : classify resp with
          | success p => simp [attemptLoop, h, hc]
          | raw rex =>
              simp only [attemptLoop, h, hc]
              intro hco
              injection hco with h2
              exact absurd (h2 ▸ classify_raw_shape resp rex hc)
                (by simp [RawExn.isClientError])
          | failure e =>
              by_cases hkind : e.kind = .rateLimit ∨ e.kind = .server
              · by_cases hlt : attempt < cfg.max_retries - 1
                · simp only [attemptLoop, h, hc, hkind, hlt, if_true]
                  exact ih (attempt + 1) _ m
                · simp [attemptLoop, h, hc, hkind, hlt]
              · simp [attemptLoop, h, hc, hkind]

/-- With at least one iteration left, the loop performs at least one
transport attempt. -/
theorem attemptLoop_one_le_countAttempts (cfg : Config)
    (hdrs : List (String × String)) (oracle : Nat → AttemptResult)
    (attempt s : Nat) (le : Option TypedError) :
    1 ≤ countAttempts (attemptLoop cfg hdrs oracle attempt (s + 1) le).1 := by
  cases h : oracle attempt with
  | transportError m =>
      by_cases hlt : attempt < cfg.max_retries - 1 <;>
        simp [attemptLoop, h, hlt, countAttempts, Event.isAttempt, List.filter]
  | response resp =>
      cases hc : classify resp with
      | success p =>
          simp [attemptLoop, h, hc, countAttempts, Event.isAttempt, List.filter]
      | raw rex =>
          simp [attemptLoop, h, hc, countAttempts, Event.isAttempt, List.filter]
      | failure e =>
          by_cases hkind : e.kind = .rateLimit ∨ e.kind = .server
          · by_cases hlt : attempt < cfg.max_retries - 1 <;>
              simp [attemptLoop, h, hc, hkind, hlt, countAttempts,
                Event.isAttempt, List.filter]
          · simp [attemptLoop, h, hc, hkind, countAttempts, Event.isAttempt,
              List.filter]

/-- A prefix of `j` retryable failures followed by a terminal typed failure:
the loop performs exactly `j + 1` attempts, sleeps exactly `j` times, and
raises the terminal error unchanged. -/
theorem attemptLoop_terminal_counts (cfg : Config)
    (hdrs : List (String × String)) (oracle : Nat → AttemptResult) :
    ∀ (j r attempt : Nat) (le : Option TypedError) (resp : HttpResponse)
      (e : TypedError),
    j < r → attempt + r = cfg.max_retries →
    (∀ i, attempt ≤ i → i < attempt + j → isRetryableFailure (oracle i) = true) →
    oracle (attempt + j) = .response resp → classify resp = .failure e →
    ¬ (e.kind = .rateLimit ∨ e.kind = .server) →
    countAttempts (attemptLoop cfg hdrs oracle attempt r le).1 = j + 1 ∧
    (sleepsOf (attemptLoop cfg hdrs oracle attempt r le).1).length = j ∧
    (attemptLoop cfg hdrs oracle attempt r le).2 = .typedError e := by
  intro j
  induction j with
  | zero =>
      intro r attempt le resp e hjr hsum hpre hor hc hkind
      obtain ⟨s, rfl⟩ : ∃ s, r = s + 1 := ⟨r - 1, by omega⟩
      rw [attemptLoop_terminal cfg hdrs oracle attempt s le resp e
        (by simpa using hor) hc hkind]
      exact ⟨rfl, rfl, rfl⟩
  | succ t ih =>
      intro r attempt le resp e hjr hsum hpre hor hc hkind
      obtain ⟨s, rfl⟩ : ∃ s, r = s + 1 := ⟨r - 1, by omega⟩
      have hlt : attempt < cfg.max_retries - 1 := by omega
      rw [attemptLoop_retry_step cfg hdrs oracle attempt s le hlt
        (hpre attempt (Nat.le_refl _) (by omega))]
      have hrec := ih s (attempt + 1) (some (observedFailure (oracle attempt)))
        resp e (by omega) (by omega)
        (fun i h1 h2 => hpre i (by omega) (by omega))
        (by rw [show attempt + 1 + t = attempt + (t + 1) by omega]; exact hor)
        hc hkind
      refine ⟨?_, ?_, hrec.2.2⟩
      · rw [countAttempts_cons_pair]
        omega
      · rw [sleepsOf_cons_pair]
        simp only [List.length_cons]
        omega

/-- A run of `j + 1` retryable failures with attempts still remaining makes
the loop try again: at least `j + 2` attempts occur. -/
theorem attemptLoop_retries_again (cfg : Config)
    (hdrs : List (String × String)) (oracle : Nat → AttemptResult) :
    ∀ (j r attempt : Nat) (le : Option TypedError),
    attempt + r = cfg.max_retries →
    (∀ i, attempt ≤ i → i ≤ attempt + j → isRetryableFailure (oracle i) = true) →
    attempt + j < cfg.max_retries - 1 →
    j + 2 ≤ countAttempts (attemptLoop cfg hdrs oracle attempt r le).1 := by
  intro j
  induction j with
  | zero =>
      intro r attempt le hsum hpre hlt2
      obtain ⟨s, rfl⟩ : ∃ s, r = s + 1 := ⟨r - 1, by omega⟩
      have hlt : attempt < cfg.max_retries - 1 := by omega
      rw [attemptLoop_retry_step cfg hdrs oracle attempt s le hlt
        (hpre attempt (Nat.le_refl _) (by omega))]
      rw [countAttempts_cons_pair]
      obtain ⟨u, hu⟩ : ∃ u, s = u + 1 := ⟨s - 1, by omega⟩
      subst hu
      have := attemptLoop_one_le_countAttempts cfg hdrs oracle (attempt + 1) u
        (some (observedFailure (oracle attempt)))
      omega
  | succ t ih =>
      intro r attempt le hsum hpre hlt2
      obtain ⟨s, rfl⟩ : ∃ s, r = s + 1 := ⟨r - 1, by omega⟩
      have hlt : attempt < cfg.max_retries - 1 := by omega
      rw [attemptLoop_retry_step cfg hdrs oracle attempt s le hlt
        (hpre attempt (Nat.le_refl _) (by omega))]
      rw [countAttempts_cons_pair]
      have hrec := ih s (attempt + 1) (some (observedFailure (oracle attempt)))
        (by omega) (fun i h1 h2 => hpre i (by omega) (by omega)) (by omega)
      omega

/-! ## Claim C1 -/

/-- C1: for a retry policy with `max_retries = n ≥ 1`, executing a request
against a permanently failing retryable condition (a transport failure, a
`ServerError` or a `RateLimitError` on every attempt) performs exactly `n`
attempts, sleeps exactly `n - 1` times with the `i`-th sleep (0-based)
lasting `retry_delay * 2^i` — except after a `RateLimitError`, where it
lasts that error's `retry_after` — and raises the failure observed on the
last attempt; when no attempt ever ran (`max_retries = 0`), it raises
`NetworkError "Request failed after all retries"` instead.  (Stated for an
api-key client so the token phase adds no events.) -/
theorem claim1_retry_exhaustion_backoff (cfg : Config) (sess : Option Session)
    (now : ℚ) (beh : TokenEndpointBehavior) (oracle : Nat → AttemptResult)
    (idem : Option String) (k : String)
    (hk : cfg.api_key = some k) (hk2 : k ≠ "")
    (hfail : ∀ i, i < cfg.max_retries → isRetryableFailure (oracle i) = true) :
    (1 ≤ cfg.max_retries →
      countAttempts (request cfg (clientInit sess) now beh oracle idem).events
          = cfg.max_retries ∧
      sleepsOf (request cfg (clientInit sess) now beh oracle idem).events
          = (List.range (cfg.max_retries - 1)).map
              (fun i => sleepFor cfg (oracle i) i) ∧
      (request cfg (clientInit sess) now beh oracle idem).outcome
          = .typedError (observedFailure (oracle (cfg.max_retries - 1)))) ∧
    (cfg.max_retries = 0 →
      (request cfg (clientInit sess) now beh oracle idem).outcome
          = .typedError (mkNetworkError "Request failed after all retries")) := by
  have hreq := request_apiKey_eq cfg (clientInit sess) now beh oracle idem k hk hk2 rfl
  rw [hreq]
  constructor
  · intro h1
    have hloop := attemptLoop_permfail cfg (requestHeaders cfg k idem) oracle
      cfg.max_retries 0 none (by omega) h1 (fun i _ h2 => hfail i h2)
    refine ⟨?_, ?_, ?_⟩
    · simp only [hloop]
      exact countAttempts_failTrace cfg (requestHeaders cfg k idem) oracle
        cfg.max_retries 0
    · simp only [hloop]
      rw [sleepsOf_failTrace]
      simp
    · simp only [hloop]
  · intro h0
    simp only [h0]
    simp [attemptLoop]

def cfgW1 : Config := ⟨"", "", some "k", "sandbox", "v2", 30, 3, 1, true, false⟩

def oracleW1 : Nat → AttemptResult := fun i =>
  if i = 0 then .transportError "timeout"
  else if i = 1 then .response ⟨429, [("Retry-After", "5")], some (.obj []), ""⟩
  else .response ⟨500, [], some (.obj [("message", .str "boom")]), ""⟩

/-- C1 witness: a 3-attempt policy against transport failure, then 429, then
500, exercised through the claim theorem. -/
theorem claim1_witness :
    countAttempts (request cfgW1 (clientInit none) 0
        (.response 200 ⟨"x", 1⟩) oracleW1 none).events = cfgW1.max_retries ∧
    sleepsOf (request cfgW1 (clientInit none) 0
        (.response 200 ⟨"x", 1⟩) oracleW1 none).events
      = (List.range (cfgW1.max_retries - 1)).map
          (fun i => sleepFor cfgW1 (oracleW1 i) i) ∧
    (request cfgW1 (clientInit none) 0
        (.response 200 ⟨"x", 1⟩) oracleW1 none).outcome
      = .typedError (observedFailure (oracleW1 (cfgW1.max_retries - 1))) :=
  (claim1_retry_exhaustion_backoff cfgW1 none 0 (.response 200 ⟨"x", 1⟩)
    oracleW1 none "k" rfl (by decide) (by decide)).1 (by decide)

/-! ## Claim C3 -/

/-- C3: failures classified as `AuthenticationError`, `AuthorizationError`,
`ValidationError`, `NotFoundError`, `ConflictError` or generic
`OpeniBankError` are raised immediately after the attempt producing them —
no further attempt, no sleep — while `RateLimitError`, `ServerError` and
transport failures trigger a retry whenever attempts remain under the
policy limit.  Attempt `kk` is the first non-retryable one (or, in the
second part, a retryable one with attempts remaining). -/
theorem claim3_terminal_immediate_retryable_retried (cfg : Config)
    (sess : Option Session) (now : ℚ) (beh : TokenEndpointBehavior)
    (oracle : Nat → AttemptResult) (idem : Option String) (k : String) (kk : Nat)
    (hk : cfg.api_key = some k) (hk2 : k ≠ "") (hkk : kk < cfg.max_retries)
    (hpre : ∀ i, i < kk → isRetryableFailure (oracle i) = true) :
    (∀ (resp : HttpResponse) (e : TypedError),
      oracle kk = .response resp → classify resp = .failure e →
      e.kind ≠ .rateLimit → e.kind ≠ .server →
      countAttempts (request cfg (clientInit sess) now beh oracle idem).events
          = kk + 1 ∧
      (sleepsOf (request cfg (clientInit sess) now beh oracle idem).events).length
          = kk ∧
      (request cfg (clientInit sess) now beh oracle idem).outcome
          = .typedError e) ∧
    (isRetryableFailure (oracle kk) = true → kk + 1 < cfg.max_retries →
      kk + 2 ≤ countAttempts
        (request cfg (clientInit sess) now beh oracle idem).events) := by
  have hreq := request_apiKey_eq cfg (clientInit sess) now beh oracle idem k hk hk2 rfl
  rw [hreq]
  constructor
  · intro resp e hor hc hrl hsv
    exact attemptLoop_terminal_counts cfg (requestHeaders cfg k idem) oracle
      kk cfg.max_retries 0 none resp e hkk (by omega)
      (fun i _ h2 => hpre i (by omega))
      (by simpa using hor) hc
      (by rintro (h | h); exact hrl h; exact hsv h)
  · intro hret hrem
    exact attemptLoop_retries_again cfg (requestHeaders cfg k idem) oracle
      kk cfg.max_retries 0 none (by omega)
      (fun i _ h2 => by
        rcases Nat.lt_or_ge i kk with h | h
        · exact hpre i h
        · have : i = kk := by omega
          rw [this]
          exact hret)
      (by omega)

def cfgW3 : Config := ⟨"", "", some "k", "sandbox", "v2", 30, 3, 1, true, false⟩

def oracleW3 : Nat → AttemptResult := fun i =>
  if i = 0 then .response ⟨500, [], some (.obj [("message", .str "down")]), ""⟩
  else .response ⟨404, [("X-Request-ID", "rid1")],
    some (.obj [("message", .str "not found"), ("resource_type", .str "account"),
          ("resource_id", .str "abc")]), ""⟩

/-- C3 witness: one retryable 500, then a terminal 404 — exercised through
the claim theorem (two attempts, one sleep, `NotFoundError` raised). -/
theorem claim3_witness :
    countAttempts (request cfgW3 (clientInit none) 0
        (.response 200 ⟨"x", 1⟩) oracleW3 none).events = 1 + 1 ∧
    (sleepsOf (request cfgW3 (clientInit none) 0
        (.response 200 ⟨"x", 1⟩) oracleW3 none).events).length = 1 ∧
    (request cfgW3 (clientInit none) 0
        (.response 200 ⟨"x", 1⟩) oracleW3 none).outcome
      = .typedError ⟨.notFound, .str "not found", none, some 404, some "rid1",
          .arr [], [], some (.str "account"), some (.str "abc"), none⟩ :=
  (claim3_terminal_immediate_retryable_retried cfgW3 none 0
      (.response 200 ⟨"x", 1⟩) oracleW3 none "k" 1 rfl (by decide) (by decide)
      (by decide)).1
    ⟨404, [("X-Request-ID", "rid1")],
      some (.obj [("message", .str "not found"), ("resource_type", .str "account"),
            ("resource_id", .str "abc")]), ""⟩
    ⟨.notFound, .str "not found", none, some 404, some "rid1",
      .arr [], [], some (.str "account"), some (.str "abc"), none⟩
    rfl rfl (by decide) (by decide)

/-- `request` in client-credentials mode with a fresh client and a 200 token
response: one token fetch, then the retry loop over headers built from the
newly minted token. -/
theorem request_creds200_eq (cfg : Config) (st : ClientState) (now : ℚ)
    (body : TokenBody) (oracle : Nat → AttemptResult) (idem : Option String)
    (ha : st.access_token = none) (hnk : apiKeyTruthy cfg = false)
    (hcid : cfg.client_id ≠ "") (hcs : cfg.client_secret ≠ "") :
    request cfg st now (.response 200 body) oracle idem =
      ⟨setAccessToken (getSession st).1 now body.access_token body.expires_in,
       Event.tokenFetch ::
         (attemptLoop cfg (requestHeaders cfg body.access_token idem) oracle 0
           cfg.max_retries none).1,
       (attemptLoop cfg (requestHeaders cfg body.access_token idem) oracle 0
         cfg.max_retries none).2⟩ := by
  have h1 : (getSession st).1.access_token = none := by
    rw [getSession_access_token]; exact ha
  have hnf : tokenIsFresh (getSession st).1 now = false := by
    simp [tokenIsFresh, h1]
  simp only [request]
  rw [ensureToken_creds_200 cfg (getSession st).1 now body hnf hnk hcid hcs]
  simp

/-- `request` in client-credentials mode when the token `session.post`
raises a transport exception: the exception escapes unconverted, before any
attempt. -/
theorem request_credsTransport_eq (cfg : Config) (st : ClientState) (now : ℚ)
    (m : String) (oracle : Nat → AttemptResult) (idem : Option String)
    (ha : st.access_token = none) (hnk : apiKeyTruthy cfg = false)
    (hcid : cfg.client_id ≠ "") (hcs : cfg.client_secret ≠ "") :
    request cfg st now (.transportError m) oracle idem =
      ⟨(getSession st).1, [Event.tokenFetch], .rawExn (.clientError m)⟩ := by
  have h1 : (getSession st).1.access_token = none := by
    rw [getSession_access_token]; exact ha
  have hnf : tokenIsFresh (getSession st).1 now = false := by
    simp [tokenIsFresh, h1]
  simp only [request]
  rw [ensureToken_creds_transport cfg (getSession st).1 now m hnf hnk hcid hcs]

/-! ## Claim C7 -/

/-- C7: when an idempotency key is supplied, every attempt of the call
transmits the same header set, whose `Idempotency-Key` entry is exactly the
supplied key — the key of attempt 1 equals the key of every retry attempt.
(Stated for an api-key client so the token phase adds no attempts.) -/
theorem claim7_idempotency_key_constant (cfg : Config) (sess : Option Session)
    (now : ℚ) (beh : TokenEndpointBehavior) (oracle : Nat → AttemptResult)
    (key : String) (k : String)
    (hk : cfg.api_key = some k) (hk2 : k ≠ "") (hkey : key ≠ "") :
    attemptHeadersOf (request cfg (clientInit sess) now beh oracle (some key)).events
      = List.replicate
          (countAttempts
            (request cfg (clientInit sess) now beh oracle (some key)).events)
          (requestHeaders cfg k (some key)) ∧
    headerGet (requestHeaders cfg k (some key)) "Idempotency-Key" = some key := by
  have hreq := request_apiKey_eq cfg (clientInit sess) now beh oracle (some key)
    k hk hk2 rfl
  rw [hreq]
  constructor
  · exact attemptHeadersOf_of_shape (requestHeaders cfg k (some key)) _
      (attemptLoop_events_shape cfg (requestHeaders cfg k (some key)) oracle
        cfg.max_retries 0 none)
  · simp only [requestHeaders]
    rw [if_pos hkey]
    rfl

def cfgW7 : Config := ⟨"", "", some "k", "sandbox", "v2", 30, 3, 1, true, false⟩

def oracleW7 : Nat → AttemptResult := fun i =>
  if i = 0 then .transportError "reset"
  else .response ⟨200, [], some (.obj [("ok", .bool true)]), ""⟩

/-- C7 witness: a retried call with key `"idem-123"`, exercised through the
claim theorem. -/
theorem claim7_witness :
    attemptHeadersOf (request cfgW7 (clientInit none) 0
        (.response 200 ⟨"x", 1⟩) oracleW7 (some "idem-123")).events
      = List.replicate
          (countAttempts (request cfgW7 (clientInit none) 0
            (.response 200 ⟨"x", 1⟩) oracleW7 (some "idem-123")).events)
          (requestHeaders cfgW7 "k" (some "idem-123")) ∧
    headerGet (requestHeaders cfgW7 "k" (some "idem-123")) "Idempotency-Key"
      = some "idem-123" :=
  claim7_idempotency_key_constant cfgW7 none 0 (.response 200 ⟨"x", 1⟩)
    oracleW7 "idem-123" "k" rfl (by decide) (by decide)

/-! ## Claim C9 -/

/-- C9: within one call in client-credentials mode, the token is fetched
once before the first attempt; the full header set (including the
`Authorization` bearer entry) is computed once from that token, and the
identical headers are transmitted on every retry attempt; the loop never
fetches a token again mid-call, however long the backoff sleeps are. -/
theorem claim9_headers_computed_once (cfg : Config) (sess : Option Session)
    (now : ℚ) (body : TokenBody) (oracle : Nat → AttemptResult)
    (idem : Option String)
    (hnk : apiKeyTruthy cfg = false)
    (hcid : cfg.client_id ≠ "") (hcs : cfg.client_secret ≠ "") :
    (request cfg (clientInit sess) now (.response 200 body) oracle idem).events
      = Event.tokenFetch ::
          (attemptLoop cfg (requestHeaders cfg body.access_token idem) oracle 0
            cfg.max_retries none).1 ∧
    countTokenFetches
      ((attemptLoop cfg (requestHeaders cfg body.access_token idem) oracle 0
        cfg.max_retries none).1) = 0 ∧
    attemptHeadersOf
      ((attemptLoop cfg (requestHeaders cfg body.access_token idem) oracle 0
        cfg.max_retries none).1)
      = List.replicate
          (countAttempts
            ((attemptLoop cfg (requestHeaders cfg body.access_token idem) oracle 0
              cfg.max_retries none).1))
          (requestHeaders cfg body.access_token idem) := by
  refine ⟨?_, ?_, ?_⟩
  · rw [request_creds200_eq cfg (clientInit sess) now body oracle idem rfl
      hnk hcid hcs]
  · exact countTokenFetches_of_shape (requestHeaders cfg body.access_token idem) _
      (attemptLoop_events_shape cfg (requestHeaders cfg body.access_token idem)
        oracle cfg.max_retries 0 none)
  · exact attemptHeadersOf_of_shape (requestHeaders cfg body.access_token idem) _
      (attemptLoop_events_shape cfg (requestHeaders cfg body.access_token idem)
        oracle cfg.max_retries 0 none)

def cfgW9 : Config := ⟨"cid", "sec", none, "sandbox", "v2", 30, 3, 1, true, false⟩

def oracleW9 : Nat → AttemptResult := fun i =>
  if i = 0 then .response ⟨429, [("Retry-After", "5")], some (.obj []), ""⟩
  else .response ⟨200, [], some (.obj [("ok", .bool true)]), ""⟩

/-- C9 witness: a client-credentials call that retries once after a 429,
exercised through the claim theorem. -/
theorem claim9_witness :
    (request cfgW9 (clientInit none) 0 (.response 200 ⟨"tok", 3600⟩)
        oracleW9 none).events
      = Event.tokenFetch ::
          (attemptLoop cfgW9 (requestHeaders cfgW9 "tok" none) oracleW9 0
            cfgW9.max_retries none).1 ∧
    countTokenFetches
      ((attemptLoop cfgW9 (requestHeaders cfgW9 "tok" none) oracleW9 0
        cfgW9.max_retries none).1) = 0 ∧
    attemptHeadersOf
      ((attemptLoop cfgW9 (requestHeaders cfgW9 "tok" none) oracleW9 0
        cfgW9.max_retries none).1)
      = List.replicate
          (countAttempts
            ((attemptLoop cfgW9 (requestHeaders cfgW9 "tok" none) oracleW9 0
              cfgW9.max_retries none).1))
          (requestHeaders cfgW9 "tok" none) :=
  claim9_headers_computed_once cfgW9 none 0 ⟨"tok", 3600⟩ oracleW9 none
    (by decide) (by decide) (by decide)

/-! ## Claim C8 -/

/-- C8: a client constructed with no (truthy) api key and with client_id or
client_secret missing raises `AuthenticationError` on any request before
any transport call is made: the event trace is empty — no attempt and no
token-endpoint call ever happens. -/
theorem claim8_no_creds_fails_before_transport (cfg : Config)
    (sess : Option Session) (now : ℚ) (beh : TokenEndpointBehavior)
    (oracle : Nat → AttemptResult) (idem : Option String)
    (hak : apiKeyTruthy cfg = false)
    (hc : cfg.client_id = "" ∨ cfg.client_secret = "") :
    (request cfg (clientInit sess) now beh oracle idem).events = [] ∧
    (request cfg (clientInit sess) now beh oracle idem).outcome
      = .typedError (mkAuthSimple "No valid credentials configured") ∧
    (mkAuthSimple "No valid credentials configured").kind = .authentication := by
  have h1 : (getSession (clientInit sess)).1.access_token = none := by
    rw [getSession_access_token]; rfl
  have hnf : tokenIsFresh (getSession (clientInit sess)).1 now = false := by
    simp [tokenIsFresh, h1]
  refine ⟨?_, ?_, rfl⟩ <;>
    · simp only [request]
      rw [ensureToken_noCreds cfg (getSession (clientInit sess)).1 now beh
        hnf hak hc]

def cfgW8 : Config := ⟨"", "sec", none, "sandbox", "v2", 30, 3, 1, true, false⟩

/-- C8 witness: a client with neither api key nor client_id, exercised
through the claim theorem. -/
theorem claim8_witness :
    (request cfgW8 (clientInit none) 0 (.response 200 ⟨"x", 1⟩)
        (fun _ => .transportError "never") none).events = [] ∧
    (request cfgW8 (clientInit none) 0 (.response 200 ⟨"x", 1⟩)
        (fun _ => .transportError "never") none).outcome
      = .typedError (mkAuthSimple "No valid credentials configured") ∧
    (mkAuthSimple "No valid credentials configured").kind = .authentication :=
  claim8_no_creds_fails_before_transport cfgW8 none 0 (.response 200 ⟨"x", 1⟩)
    (fun _ => .transportError "never") none (by decide) (Or.inl rfl)

/-! ## Claim C10 -/

/-- C10: `close` on a client constructed with a caller-supplied session
leaves that session untouched — nothing is closed and the stored session
reference is unchanged; in general `close` is the identity whenever the
session is not owned, and it closes and clears exactly the stored session
when the client owns it. -/
theorem claim10_close_spares_caller_session (st : ClientState) (s : Session) :
    close (clientInit (some s)) = (clientInit (some s), none) ∧
    (st.owned_session = false → close st = (st, none)) ∧
    (st.owned_session = true → st.session = some s →
      close st = (⟨st.access_token, st.token_expires_at, none, true⟩, some s)) := by
  refine ⟨?_, ?_, ?_⟩
  · simp [close, clientInit]
  · intro h
    simp [close, h]
  · intro h hs
    simp [close, h, hs]

/-- C10 witness: a caller-supplied session survives `close`, while an owned
session is closed and cleared — both through the claim theorem. -/
theorem claim10_witness :
    close (clientInit (some ⟨7, false⟩)) = (clientInit (some ⟨7, false⟩), none) ∧
    close ⟨none, 0, some ⟨7, false⟩, true⟩
      = (⟨none, 0, none, true⟩, some ⟨7, false⟩) :=
  ⟨(claim10_close_spares_caller_session (clientInit (some ⟨7, false⟩)) ⟨7, false⟩).1,
   (claim10_close_spares_caller_session ⟨none, 0, some ⟨7, false⟩, true⟩ ⟨7, false⟩).2.2
     rfl rfl⟩

/-! ## Claim C4 -/

def cfgW4 : Config := ⟨"cid", "sec", none, "sandbox", "v2", 30, 3, 1, true, false⟩

/-- C4 counterexample: the claim says the client-credentials token request
fails with `AuthenticationError` on a *non-2xx* response; but when the
token endpoint answers 201 — a 2xx status — the code still raises
`AuthenticationError "Failed to obtain access token: 201"` instead of
caching and returning the token (`_request_token` tests `status != 200`,
not membership in 2xx). -/
theorem claim4_counterexample :
    ensureToken cfgW4 (clientInit none) 0 (.response 201 ⟨"tok", 3600⟩)
      = (clientInit none, [Event.tokenFetch],
         .typedErr (mkAuthSimple "Failed to obtain access token: 201")) ∧
    200 ≤ 201 ∧ 201 < 300 :=
  ⟨rfl, by decide, by decide⟩

/-- C4 (amended): `_ensure_token` follows exactly this decision order:
(1) a cached token that is non-empty and unexpired is returned as is;
(2) else a configured (truthy) api key is returned directly, with no caching
and no expiry tracking (the state is unchanged); (3) else with client_id and
client_secret both configured a client-credentials token request runs —
failing with `AuthenticationError` carrying the status on any response
whose status is not exactly 200 (including 2xx statuses such as 201), and on
a 200 response caching the token with
`expires_at = now + expires_in - 60` seconds and returning it; (4) else it
fails with `AuthenticationError "No valid credentials configured"`. -/
theorem claim4_ensure_token_decision_order (cfg : Config) (st : ClientState)
    (now : ℚ) (beh : TokenEndpointBehavior) :
    (∀ t, st.access_token = some t → t ≠ "" → now < st.token_expires_at →
      ensureToken cfg st now beh = (st, [], .ok t)) ∧
    (∀ k, tokenIsFresh st now = false → cfg.api_key = some k → k ≠ "" →
      ensureToken cfg st now beh = (st, [], .ok k)) ∧
    (∀ status body, tokenIsFresh st now = false → apiKeyTruthy cfg = false →
      cfg.client_id ≠ "" → cfg.client_secret ≠ "" →
      beh = .response status body →
      (status ≠ 200 →
        ensureToken cfg st now beh =
          (st, [Event.tokenFetch], .typedErr (mkAuthSimple
            ("Failed to obtain access token: " ++ toString status)))) ∧
      (status = 200 →
        ensureToken cfg st now beh =
          (setAccessToken st now body.access_token body.expires_in,
           [Event.tokenFetch], .ok body.access_token) ∧
        (setAccessToken st now body.access_token body.expires_in).token_expires_at
          = now + (body.expires_in : ℚ) - 60 ∧
        (setAccessToken st now body.access_token
          body.expires_in).access_token = some body.access_token)) ∧
    (tokenIsFresh st now = false → apiKeyTruthy cfg = false →
      (cfg.client_id = "" ∨ cfg.client_secret = "") →
      ensureToken cfg st now beh =
        (st, [], .typedErr (mkAuthSimple "No valid credentials configured"))) := by
  refine ⟨?_, ?_, ?_, ?_⟩
  · intro t ht ht2 hlt
    exact ensureToken_fresh cfg st now beh t ht ht2 hlt
  · intro k hnf hk hk2
    exact ensureToken_apiKey cfg st now beh k hnf hk hk2
  · intro status body hnf hnk hcid hcs hbeh
    constructor
    · intro hs
      rw [hbeh]
      exact ensureToken_creds_non200 cfg st now status body hnf hnk hcid hcs hs
    · intro hs
      subst hs
      rw [hbeh]
      exact ⟨ensureToken_creds_200 cfg st now body hnf hnk hcid hcs, rfl, rfl⟩
  · intro hnf hnk hc
    exact ensureToken_noCreds cfg st now beh hnf hnk hc

/-- C4 witness: the cached-token, api-key, 200-success and no-credentials
legs of the decision order at concrete inputs, all through the claim
theorem. -/
theorem claim4_witness :
    ensureToken cfgW4 ⟨some "cached", 100, none, true⟩ 0
        (.response 500 ⟨"x", 1⟩) = (⟨some "cached", 100, none, true⟩, [], .ok "cached") ∧
    ensureToken ⟨"", "", some "key9", "sandbox", "v2", 30, 3, 1, true, false⟩
        (clientInit none) 0 (.response 500 ⟨"x", 1⟩)
      = (clientInit none, [], .ok "key9") ∧
    ensureToken cfgW4 (clientInit none) 0 (.response 200 ⟨"tok", 3600⟩)
      = (setAccessToken (clientInit none) 0 "tok" 3600, [Event.tokenFetch],
         .ok "tok") ∧
    ensureToken ⟨"", "sec", none, "sandbox", "v2", 30, 3, 1, true, false⟩
        (clientInit none) 0 (.response 500 ⟨"x", 1⟩)
      = (clientInit none, [],
         .typedErr (mkAuthSimple "No valid credentials configured")) :=
  ⟨(claim4_ensure_token_decision_order cfgW4 ⟨some "cached", 100, none, true⟩ 0
      (.response 500 ⟨"x", 1⟩)).1 "cached" rfl (by decide) (by decide),
   (claim4_ensure_token_decision_order
      ⟨"", "", some "key9", "sandbox", "v2", 30, 3, 1, true, false⟩
      (clientInit none) 0 (.response 500 ⟨"x", 1⟩)).2.1 "key9" (by decide) rfl
      (by decide),
   ((claim4_ensure_token_decision_order cfgW4 (clientInit none) 0
      (.response 200 ⟨"tok", 3600⟩)).2.2.1 200 ⟨"tok", 3600⟩ (by decide)
      (by decide) (by decide) (by decide) rfl).2 rfl |>.1,
   (claim4_ensure_token_decision_order
      ⟨"", "sec", none, "sandbox", "v2", 30, 3, 1, true, false⟩
      (clientInit none) 0 (.response 500 ⟨"x", 1⟩)).2.2.2 (by decide) (by decide)
      (Or.inl rfl)⟩

/-! ## Claim C5 -/

def cfgW5 : Config := ⟨"cid", "sec", none, "sandbox", "v2", 30, 3, 1, true, false⟩

/-- C5 counterexample: a transport exception during token acquisition is
*not* converted to `NetworkError` — the caller observes the raw transport
exception (`_request_token` has no handler for `aiohttp.ClientError`, and
`_ensure_token` is awaited outside the retry loop's `try`). -/
theorem claim5_counterexample :
    (request cfgW5 (clientInit none) 0 (.transportError "Connection refused")
        (fun _ => .transportError "never reached") none).outcome
      = .rawExn (.clientError "Connection refused") := rfl

/-- C5 (amended): transport-level exceptions during the retry loop's
attempts are caught and converted to `NetworkError` at the point of
occurrence — whatever the headers, attempt index or remaining budget, the
loop's outcome is never a raw transport exception, and hence neither is the
outcome of an api-key request; a transport-level exception during token
acquisition, however, propagates to the caller unconverted.  (HTTP error
responses are converted to typed errors only when classification itself
does not raise: the untyped `ValueError` / `AttributeError` / `TypeError`
paths recorded in C2 and C6 also escape the engine, so the original
claim's blanket conversion statement is not restored here.) -/
theorem claim5_transport_conversion (cfg : Config) (sess : Option Session)
    (now : ℚ) (m : String) (oracle : Nat → AttemptResult) (idem : Option String) :
    (∀ (hdrs : List (String × String)) (attempt r : Nat) (le : Option TypedError),
      (attemptLoop cfg hdrs oracle attempt r le).2 ≠ .rawExn (.clientError m)) ∧
    (∀ (beh : TokenEndpointBehavior) (k : String),
      cfg.api_key = some k → k ≠ "" →
      (request cfg (clientInit sess) now beh oracle idem).outcome
        ≠ .rawExn (.clientError m)) ∧
    (apiKeyTruthy cfg = false → cfg.client_id ≠ "" → cfg.client_secret ≠ "" →
      (request cfg (clientInit sess) now (.transportError m) oracle idem).outcome
        = .rawExn (.clientError m)) := by
  refine ⟨?_, ?_, ?_⟩
  · intro hdrs attempt r le
    exact attemptLoop_outcome_not_clientError cfg hdrs oracle r attempt le m
  · intro beh k hk hk2
    rw [request_apiKey_eq cfg (clientInit sess) now beh oracle idem k hk hk2 rfl]
    exact attemptLoop_outcome_not_clientError cfg (requestHeaders cfg k idem)
      oracle cfg.max_retries 0 none m
  · intro hnk hcid hcs
    rw [request_credsTransport_eq cfg (clientInit sess) now m oracle idem rfl
      hnk hcid hcs]

def cfgW5k : Config := ⟨"", "", some "k", "sandbox", "v2", 30, 3, 1, true, false⟩

/-- C5 witness: the loop itself never yields a raw transport exception (a
concrete loop run and a concrete api-key request), while a transport
failure at the token endpoint surfaces raw — all through the claim
theorem. -/
theorem claim5_witness :
    (attemptLoop cfgW5k (getHeaders cfgW5k "k")
        (fun _ => .transportError "boom") 0 3 none).2
      ≠ .rawExn (.clientError "boom") ∧
    (request cfgW5k (clientInit none) 0 (.response 200 ⟨"x", 1⟩)
        (fun _ => .transportError "boom") none).outcome
      ≠ .rawExn (.clientError "boom") ∧
    (request cfgW5 (clientInit none) 0 (.transportError "boom")
        (fun _ => .transportError "boom") none).outcome
      = .rawExn (.clientError "boom") :=
  ⟨(claim5_transport_conversion cfgW5k none 0 "boom"
      (fun _ => .transportError "boom") none).1 (getHeaders cfgW5k "k") 0 3 none,
   (claim5_transport_conversion cfgW5k none 0 "boom"
      (fun _ => .transportError "boom") none).2.1 (.response 200 ⟨"x", 1⟩) "k"
      rfl (by decide),
   (claim5_transport_conversion cfgW5 none 0 "boom"
      (fun _ => .transportError "boom") none).2.2 (by decide) (by decide)
      (by decide)⟩

/-! ## Claim C2 -/

def respW2 : HttpResponse := ⟨429, [("Retry-After", "0")], some (.obj []), "zero"⟩

/-- C2 counterexample: a 429 response whose `Retry-After` header parses to
`0` does not carry `retry_after = 0` as the claim's "retry_after parsed from
the Retry-After header" demands — the constructor's `retry_after or 60.0`
idiom replaces the falsy `0.0` by the default `60`. -/
theorem claim2_counterexample :
    classify respW2 = .failure ⟨.rateLimit, .str "Unknown error", none,
      some 429, none, .arr [], [], none, none, some 60⟩ ∧
    parseFloatQ "0" = some 0 ∧ (60 : ℚ) ≠ 0 :=
  ⟨rfl, by decide, by decide⟩

/-- C2 (amended): the result of classifying a response is determined by its
status code exactly as the §4.2 table, over the responses on which the
code's extraction does not itself raise — 200/201 return the parsed body,
204 returns an empty (non-null) result, and when `error_data` (the body
parsed as JSON, falling back to `{"message": raw text}` when not parseable)
is a JSON object, 401/403/400/404/409/429/≥500/other map to the documented
typed errors with the documented extra fields, every error carrying
message (the object's `message` field, default `"Unknown error"`), code,
status_code and request_id — with these deviations: at 429, `retry_after`
is the parsed `Retry-After` value only when nonzero (a parsed `0` is
replaced by the default `60`, also used when the header is absent), and an
unparseable header raises an untyped `ValueError` (C6); a parseable
non-object error body raises an untyped `AttributeError` from
`error_data.get` before any dispatch; and a malformed `errors` value on a
400 raises an untyped `AttributeError`/`TypeError` from
`ValidationError.__init__`, so the 400 row holds when that extraction
succeeds. -/
theorem claim2_classification_table (resp : HttpResponse) :
    (resp.jsonBody = none →
      errorData resp = .obj [("message", JsonVal.str resp.text)]) ∧
    (∀ v, resp.jsonBody = some v → errorData resp = v) ∧
    ((resp.status = 200 ∨ resp.status = 201) → ∀ v, resp.jsonBody = some v →
      classify resp = .success v) ∧
    (resp.status = 204 →
      classify resp = .success (.obj []) ∧ JsonVal.obj [] ≠ JsonVal.null) ∧
    (resp.status = 401 → ∀ d, errorData resp = .obj d →
      classify resp = .failure ⟨.authentication,
        (dictGet d "message").getD (.str "Unknown error"), dictGet d "code",
        some resp.status, headerGet resp.headers "X-Request-ID",
        .arr [], [], none, none, none⟩) ∧
    (resp.status = 403 → ∀ d, errorData resp = .obj d →
      classify resp = .failure ⟨.authorization,
        (dictGet d "message").getD (.str "Unknown error"), dictGet d "code",
        some resp.status, headerGet resp.headers "X-Request-ID",
        pythonOrEmptyList (dictGet d "required_scopes"), [], none, none, none⟩) ∧
    (resp.status = 400 → ∀ d fes, errorData resp = .obj d →
      mkFieldErrors (dictGet d "errors") = .ok fes →
      classify resp = .failure ⟨.validation,
        (dictGet d "message").getD (.str "Unknown error"), dictGet d "code",
        some resp.status, headerGet resp.headers "X-Request-ID",
        .arr [], fes, none, none, none⟩) ∧
    (resp.status = 404 → ∀ d, errorData resp = .obj d →
      classify resp = .failure ⟨.notFound,
        (dictGet d "message").getD (.str "Unknown error"), dictGet d "code",
        some resp.status, headerGet resp.headers "X-Request-ID",
        .arr [], [], dictGet d "resource_type", dictGet d "resource_id",
        none⟩) ∧
    (resp.status = 409 → ∀ d, errorData resp = .obj d →
      classify resp = .failure ⟨.conflict,
        (dictGet d "message").getD (.str "Unknown error"), dictGet d "code",
        some resp.status, headerGet resp.headers "X-Request-ID",
        .arr [], [], none, none, none⟩) ∧
    (resp.status = 429 → ∀ d, errorData resp = .obj d →
      (∀ q, parseFloatQ ((headerGet resp.headers "Retry-After").getD "60")
          = some q →
        classify resp = .failure ⟨.rateLimit,
          (dictGet d "message").getD (.str "Unknown error"), dictGet d "code",
          some resp.status, headerGet resp.headers "X-Request-ID",
          .arr [], [], none, none, some (if q = 0 then 60 else q)⟩) ∧
      (headerGet resp.headers "Retry-After" = none →
        classify resp = .failure ⟨.rateLimit,
          (dictGet d "message").getD (.str "Unknown error"), dictGet d "code",
          some resp.status, headerGet resp.headers "X-Request-ID",
          .arr [], [], none, none, some 60⟩)) ∧
    (500 ≤ resp.status → ∀ d, errorData resp = .obj d →
      classify resp = .failure ⟨.server,
        (dictGet d "message").getD (.str "Unknown error"), dictGet d "code",
        some resp.status, headerGet resp.headers "X-Request-ID",
        .arr [], [], none, none, none⟩) ∧
    (resp.status ≠ 200 → resp.status ≠ 201 → resp.status ≠ 204 →
      resp.status ≠ 401 → resp.status ≠ 403 → resp.status ≠ 400 →
      resp.status ≠ 404 → resp.status ≠ 409 → resp.status ≠ 429 →
      resp.status < 500 → ∀ d, errorData resp = .obj d →
      classify resp = .failure ⟨.generic,
        (dictGet d "message").getD (.str "Unknown error"), dictGet d "code",
        some resp.status, headerGet resp.headers "X-Request-ID",
        .arr [], [], none, none, none⟩) ∧
    (resp.status ≠ 200 → resp.status ≠ 201 → resp.status ≠ 204 →
      ∀ v, errorData resp = v → v.isObj = false →
      classify resp = .raw (.attributeError
        (pyTypeName v ++ " object has no attribute get"))) := by
  refine ⟨?_, ?_, ?_, ?_, ?_, ?_, ?_, ?_, ?_, ?_, ?_, ?_, ?_⟩
  · intro h
    simp [errorData, h]
  · intro v h
    simp [errorData, h]
  · rintro (h | h) v hv <;> simp [classify, h, hv]
  · intro h
    exact ⟨by simp [classify, h], by simp⟩
  · intro h d hd
    simp [classify, h, hd]
  · intro h d hd
    simp [classify, h, hd]
  · intro h d fes hd hfe
    simp [classify, h, hd, hfe]
  · intro h d hd
    simp [classify, h, hd]
  · intro h d hd
    simp [classify, h, hd]
  · intro h d hd
    constructor
    · intro q hq
      simp [classify, h, hd, hq]
    · intro hnone
      have hp : parseFloatQ "60" = some (60 : ℚ) := by decide
      simp [classify, h, hd, hnone, hp]
  · intro h5 d hd
    have h200 : resp.status ≠ 200 := by omega
    have h201 : resp.status ≠ 201 := by omega
    have h204 : resp.status ≠ 204 := by omega
    have h401 : resp.status ≠ 401 := by omega
    have h403 : resp.status ≠ 403 := by omega
    have h400 : resp.status ≠ 400 := by omega
    have h404 : resp.status ≠ 404 := by omega
    have h409 : resp.status ≠ 409 := by omega
    have h429 : resp.status ≠ 429 := by omega
    simp [classify, h200, h201, h204, h401, h403, h400, h404, h409, h429,
      ge_iff_le, h5, hd]
  · intro h200 h201 h204 h401 h403 h400 h404 h409 h429 hlt d hd
    have h500 : ¬ 500 ≤ resp.status := by omega
    simp [classify, h200, h201, h204, h401, h403, h400, h404, h409, h429,
      ge_iff_le, h500, hd]
  · intro h200 h201 h204 v hv hobj
    cases v <;> simp [JsonVal.isObj] at hobj <;>
      simp [classify, h200, h201, h204, hv, pyTypeName]

def respW2b : HttpResponse := ⟨404, [("X-Request-ID", "rid9")],
  some (.obj [("message", .str "not found"), ("resource_type", .str "account"),
        ("resource_id", .str "acc_1")]), "t"⟩

/-- C2 witness: the 404 leg of the table at a concrete response, through
the claim theorem. -/
theorem claim2_witness :
    classify respW2b = .failure ⟨.notFound, .str "not found", none, some 404,
      some "rid9", .arr [], [], some (.str "account"), some (.str "acc_1"),
      none⟩ :=
  (claim2_classification_table respW2b).2.2.2.2.2.2.2.1 rfl
    [("message", .str "not found"), ("resource_type", .str "account"),
     ("resource_id", .str "acc_1")] rfl

/-! ## Claim C6 -/

def respC6 : HttpResponse :=
  ⟨429, [("Retry-After", "Wed, 21 Oct 2015 07:28:00 GMT")],
   some (.obj [("message", .str "slow down")]), "slow down"⟩

/-- C6 (code bug, failing input): classification is not total over all
header values — on a 429 response whose `Retry-After` header is an
HTTP-date (a form RFC 7231 allows), `float(...)` raises an untyped
`ValueError` instead of the documented `RateLimitError`, and that raw
exception escapes to the caller. -/
theorem claim6_totality_violated :
    classify respC6 = .raw (.valueError
      "could not convert string to float: Wed, 21 Oct 2015 07:28:00 GMT") ∧
    parseFloatQ "Wed, 21 Oct 2015 07:28:00 GMT" = none :=
  ⟨rfl, by decide⟩

end OpeniBank
